import Mathlib

/-!
# Article server and Terraform article provider

A shallow embedding of `article-server/main.go` (an in-memory CRUD service for
articles) and of `terraform-provider-article/main.go` (the Terraform resource
that drives it), followed by theorems about both.

Conventions of the embedding:

* the Go map `articles` is an association list with pairwise distinct keys
  (`AList`); its entry order stands for Go's unspecified iteration order;
* a Go slice that may be `nil` is an `Option (List _)`, `none` being `nil`;
* JSON text on the wire is represented by the data it carries: a request body is
  the record of the fields it holds (`JSONArticle`), a response body is what the
  handler passed to its encoder;
* `rand.Intn(1000)` is an explicit argument of type `Fin 1000`;
* the mutex makes every handler atomic on the map, so handlers are functions
  from a store to a response and a store.
-/

namespace ArticleServer

/-- Article of `article-server/main.go`; `Tags = none` is the nil slice. -/
structure Article where
  ID : Int
  Heading : String
  Description : String
  Tags : Option (List String)
  deriving DecidableEq, Repr

/-- The in-memory map `articles`, keyed by integer id. -/
abbrev Store := AList (fun _ : Int => Article)

/-- The fields a JSON request body carries. A field is `none` when the body
omits it or gives it as JSON `null`; `encoding/json` leaves the struct field at
its zero value in both cases. -/
structure JSONArticle where
  id : Option Int := none
  heading : Option String := none
  description : Option String := none
  tags : Option (List String) := none
  deriving DecidableEq, Repr

/-- Result of `json.NewDecoder(r.Body).Decode(&article)` on a zero `Article`
when decoding succeeds. -/
def decodeArticle (b : JSONArticle) : Article :=
  { ID := b.id.getD 0
    Heading := b.heading.getD ""
    Description := b.description.getD ""
    Tags := b.tags }

/-- An HTTP request as the handlers see it: the method, the `id` query
parameter (`none` when the URL has none) and the body (`none` when it does not
decode into an `Article`). -/
structure Request where
  method : String
  id : Option String := none
  body : Option JSONArticle := none
  deriving DecidableEq, Repr

/-- What a handler writes as the response body. -/
inductive Body where
  | empty
  | text (msg : String)
  | article (a : Article)
  | articles (as : List Article)
  deriving DecidableEq, Repr

/-- An HTTP response: status code and body. -/
structure Response where
  status : Nat
  body : Body
  deriving DecidableEq, Repr

/-- Value of one decimal digit. -/
def digitVal (c : Char) : Option Nat :=
  if 48 ≤ c.toNat ∧ c.toNat ≤ 57 then some (c.toNat - 48) else none

/-- Reads a run of decimal digits, most significant first, onto `acc`. -/
def parseDigits : List Char → Nat → Option Nat
  | [], acc => some acc
  | c :: cs, acc =>
    match digitVal c with
    | none => none
    | some v => parseDigits cs (acc * 10 + v)

/-- Splits a leading sign off: `true` with the rest after a `-`, `false` with
the rest after a `+`, `false` with the whole text otherwise. -/
def splitSign : List Char → Bool × List Char
  | '-' :: t => (true, t)
  | '+' :: t => (false, t)
  | t => (false, t)

/-- Go's `strconv.Atoi` on a 64-bit platform: an optional sign, then at least
one decimal digit and nothing else; values outside the `int` range are
errors. -/
def Atoi (s : String) : Option Int :=
  match (splitSign s.data).2 with
  | [] => none
  | c :: cs =>
    match parseDigits (c :: cs) 0 with
    | none => none
    | some v =>
      if (splitSign s.data).1 then (if v ≤ 2 ^ 63 then some (-(v : Int)) else none)
      else (if v < 2 ^ 63 then some (v : Int) else none)

/-- The value of `r.URL.Query().Get("id")`: empty when the parameter is absent. -/
def queryId (r : Request) : String := r.id.getD ""

/-- Handler `createArticle`, with `n` the value drawn by `rand.Intn(1000)`. -/
def createArticle (n : Fin 1000) (r : Request) (articles : Store) : Response × Store :=
  match r.body with
  | none => (⟨400, .text "Invalid JSON"⟩, articles)
  | some b =>
    let article := { decodeArticle b with ID := (n.val : Int) }
    (⟨201, .article article⟩, articles.insert article.ID article)

/-- Handler `getArticle`. -/
def getArticle (r : Request) (articles : Store) : Response × Store :=
  match Atoi (queryId r) with
  | none => (⟨400, .text "Invalid ID"⟩, articles)
  | some id =>
    match articles.lookup id with
    | none => (⟨404, .text "Article not found"⟩, articles)
    | some article => (⟨200, .article article⟩, articles)

/-- Handler `getAllArticles`. The list is in the order of the entries; the nil
slice an empty map gives is the empty list here. -/
def getAllArticles (_r : Request) (articles : Store) : Response × Store :=
  (⟨200, .articles (articles.entries.map (fun e => e.2))⟩, articles)

/-- Handler `updateArticle`. -/
def updateArticle (r : Request) (articles : Store) : Response × Store :=
  match Atoi (queryId r) with
  | none => (⟨400, .text "Invalid ID"⟩, articles)
  | some id =>
    match r.body with
    | none => (⟨400, .text "Invalid JSON"⟩, articles)
    | some b =>
      match articles.lookup id with
      | none => (⟨404, .text "Article not found"⟩, articles)
      | some _ =>
        let updatedArticle := { decodeArticle b with ID := id }
        (⟨200, .article updatedArticle⟩, articles.insert id updatedArticle)

/-- Handler `deleteArticle`. -/
def deleteArticle (r : Request) (articles : Store) : Response × Store :=
  match Atoi (queryId r) with
  | none => (⟨400, .text "Invalid ID"⟩, articles)
  | some id =>
    match articles.lookup id with
    | none => (⟨404, .text "Article not found"⟩, articles)
    | some _ => (⟨204, .empty⟩, articles.erase id)

/-- The store after `seedArticles` has run on the empty map. -/
def seedArticles : Store :=
  (((∅ : Store).insert 1
      ⟨1, "Go Concurrency", "Learn about goroutines and channels in Go.",
        some ["Go", "Concurrency"]⟩).insert 2
      ⟨2, "REST API Design", "Best practices for designing RESTful APIs.",
        some ["API", "REST"]⟩).insert 3
      ⟨3, "Microservices Architecture", "An introduction to microservices.",
        some ["Microservices", "Architecture"]⟩

/-- The dispatch closure registered for `/api/v1/article` in `main`. -/
def handler (n : Fin 1000) (r : Request) (articles : Store) : Response × Store :=
  if r.method = "POST" then createArticle n r articles
  else if r.method = "GET" then
    (if r.id.isSome then getArticle r articles else getAllArticles r articles)
  else if r.method = "PUT" then updateArticle r articles
  else if r.method = "DELETE" then deleteArticle r articles
  else (⟨405, .text "Method not allowed"⟩, articles)

/-- The store states the server can be in: the seeded store, and any state
reached from one by serving one more request (any method, query and body, and
any draw of the ID generator). -/
inductive Reachable : Store → Prop where
  | seed : Reachable seedArticles
  | step (n : Fin 1000) (r : Request) (articles : Store) :
      Reachable articles → Reachable (handler n r articles).2

/-- If the request is a POST or a PUT and its body decodes, the body carries a
`tags` array. -/
def Request.carriesTags (r : Request) : Bool :=
  if r.method = "POST" ∨ r.method = "PUT" then
    match r.body with
    | none => true
    | some b => b.tags.isSome
  else true

/-- The store states reached from the seeded store by requests whose POST and PUT
bodies, when they decode, carry a `tags` array. -/
inductive ReachableWithTags : Store → Prop where
  | seed : ReachableWithTags seedArticles
  | step (n : Fin 1000) (r : Request) (articles : Store) :
      r.carriesTags = true → ReachableWithTags articles →
      ReachableWithTags (handler n r articles).2

end ArticleServer

namespace Provider

open ArticleServer

/-- An element of a Go `[]interface{}`: a string, or a value of another dynamic
type, kept as the text `%v` prints for it. -/
inductive Elem where
  | str (s : String)
  | other (shown : String)
  deriving DecidableEq, Repr

/-- A Go `interface{}` value as the provider meets it: `nil`, a `string`, a
`float64` holding a non-negative integer below `10^6` (the range in which `%v`
prints a `float64` as plain decimal digits; from `10^6` on it prints an exponent
form), a `[]interface{}`, a non-nil `[]string`, or any other value, every other
`float64` included, kept as the text `%v` prints for it. -/
inductive Value where
  | nil
  | str (s : String)
  | num (n : Fin 1000000)
  | list (xs : List Elem)
  | strings (xs : List String)
  | other (shown : String)
  deriving DecidableEq, Repr

/-- Text of `fmt.Sprintf("%v", e)` for a list element. -/
def Elem.sprint : Elem → String
  | .str s => s
  | .other shown => shown

/-- Text of `fmt.Sprintf("%v", v)`. -/
def Value.sprint : Value → String
  | .nil => "<nil>"
  | .str s => s
  | .num n => toString n.val
  | .list xs => "[" ++ " ".intercalate (xs.map Elem.sprint) ++ "]"
  | .strings xs => "[" ++ " ".intercalate xs ++ "]"
  | .other shown => shown

/-- The part of `schema.ResourceData` the resource functions touch: the
identifier (`d.Id()`) and what `d.Get` returns for the declared fields. -/
structure ResourceData where
  id : String
  heading : Value
  description : Value
  tags : Value
  deriving DecidableEq, Repr

/-- The map literal `article` handed to `sendRequest` in Create and Update. -/
structure Payload where
  heading : String
  description : String
  tags : List String
  deriving DecidableEq, Repr

/-- The URL `baseURL/api/v1/article`, with `?id=<id>` appended when `id` is
given. -/
structure URL where
  base : String
  id : Option String
  deriving DecidableEq, Repr

/-- The entries of a response body decoded into `map[string]interface{}` that
the provider reads; a key the body lacks reads as `nil`. -/
structure JSONMap where
  id : Value
  heading : Value
  description : Value
  tags : Value
  deriving DecidableEq, Repr

/-- An `*http.Response`: the status code, and the body as
`json.NewDecoder(resp.Body).Decode` reads it into a map (`none` when decoding
fails). -/
structure HTTPResponse where
  status : Nat
  body : Option JSONMap
  deriving DecidableEq, Repr

/-- The errors the resource functions return. -/
inductive Err where
  | tagsNil
  | tagsNotList (got : Value)
  | tagNotString (got : Elem)
  | metaNotString (got : Value)
  | transport (msg : String)
  | status (op : String) (code : Nat)
  | decode
  deriving DecidableEq, Repr

/-- How a resource function ends: `nil` error, an error, or a run-time panic
(a failed type assertion without the comma-ok form). -/
inductive Result where
  | ok
  | error (e : Err)
  | panic
  deriving DecidableEq, Repr

/-- The HTTP machinery under `sendRequest`, for a remote whose state has type
`σ`: `newRequest` is the error of `http.NewRequest` for a method and URL (`none`
when the request is built), and `roundTrip` is `client.Do`, which yields a
transport error or a response and moves the remote to a new state. -/
structure Remote (σ : Type) where
  newRequest : String → URL → Option String
  roundTrip : URL → String → Option Payload → σ → Except String HTTPResponse × σ

/-- Helper `sendRequest`. With a payload, the content-type header is set on the
request before the error of `http.NewRequest` is looked at, so a request that
could not be built is a nil pointer dereference: the call panics (`none`).
Without a payload that error is returned. A request that was built is
performed. -/
def sendRequest {σ : Type} (remote : Remote σ) (url : URL) (method : String)
    (data : Option Payload) (w : σ) : Option (Except String HTTPResponse × σ) :=
  match data with
  | some p =>
    match remote.newRequest method url with
    | some _ => none
    | none => some (remote.roundTrip url method (some p) w)
  | none =>
    match remote.newRequest method url with
    | some err => some (.error err, w)
    | none => some (remote.roundTrip url method none w)

/-- The loop of Create that converts `[]interface{}` to `[]string`, stopping at
the first element that is not a string. -/
def toStringTags : List Elem → Except Elem (List String)
  | [] => .ok []
  | .str s :: rest =>
    match toStringTags rest with
    | .ok ss => .ok (s :: ss)
    | .error e => .error e
  | .other shown :: _ => .error (.other shown)

/-- Effect of `d.Set(key, v)` on a `TypeString` field: a string is stored, `nil`
resets the field to its zero value, anything else is rejected (the error is
ignored by the caller) and the field keeps its value. -/
def setString (old : Value) (v : Value) : Value :=
  match v with
  | .str s => .str s
  | .nil => .str ""
  | _ => old

/-- Effect of `d.Set("tags", v)` on the `TypeList` of strings: a list of strings
is stored and read back as `[]interface{}`, `nil` resets the field to the empty
list, anything else is rejected and the field keeps its value. -/
def setTags (old : Value) (v : Value) : Value :=
  match v with
  | .list xs =>
    match toStringTags xs with
    | .ok _ => .list xs
    | .error _ => old
  | .strings ss => .list (ss.map Elem.str)
  | .nil => .list []
  | _ => old

/-- Resource function `resourceArticleRead`. -/
def resourceArticleRead {σ : Type} (remote : Remote σ) (d : ResourceData) (m : Value)
    (w : σ) : Result × ResourceData × σ :=
  match m with
  | .str base =>
    match sendRequest remote ⟨base, some d.id⟩ "GET" none w with
    | none => (.panic, d, w)
    | some (.error e, w1) => (.error (.transport e), d, w1)
    | some (.ok resp, w1) =>
      if resp.status = 200 then
        match resp.body with
        | none => (.error .decode, d, w1)
        | some article =>
          (.ok,
            { d with
              heading := setString d.heading article.heading
              description := setString d.description article.description
              tags := setTags d.tags article.tags },
            w1)
      else (.error (.status "read" resp.status), d, w1)
  | _ => (.panic, d, w)

/-- Resource function `resourceArticleCreate`. -/
def resourceArticleCreate {σ : Type} (remote : Remote σ) (d : ResourceData) (m : Value)
    (w : σ) : Result × ResourceData × σ :=
  match d.tags with
  | .nil => (.error .tagsNil, d, w)
  | .list tagsList =>
    match toStringTags tagsList with
    | .error tag => (.error (.tagNotString tag), d, w)
    | .ok stringTags =>
      match m with
      | .str baseURL =>
        match d.heading with
        | .str heading =>
          match d.description with
          | .str description =>
            match sendRequest remote ⟨baseURL, none⟩ "POST"
                (some ⟨heading, description, stringTags⟩) w with
            | none => (.panic, d, w)
            | some (.error e, w1) => (.error (.transport e), d, w1)
            | some (.ok resp, w1) =>
              if resp.status = 201 then
                match resp.body with
                | none => (.error .decode, d, w1)
                | some createdArticle =>
                  resourceArticleRead remote { d with id := createdArticle.id.sprint } m w1
              else (.error (.status "create" resp.status), d, w1)
          | _ => (.panic, d, w)
        | _ => (.panic, d, w)
      | other => (.error (.metaNotString other), d, w)
  | other => (.error (.tagsNotList other), d, w)

/-- Resource function `resourceArticleUpdate`. -/
def resourceArticleUpdate {σ : Type} (remote : Remote σ) (d : ResourceData) (m : Value)
    (w : σ) : Result × ResourceData × σ :=
  match m with
  | .str base =>
    match d.heading with
    | .str heading =>
      match d.description with
      | .str description =>
        match d.tags with
        | .strings tags =>
          match sendRequest remote ⟨base, some d.id⟩ "PUT"
              (some ⟨heading, description, tags⟩) w with
          | none => (.panic, d, w)
          | some (.error e, w1) => (.error (.transport e), d, w1)
          | some (.ok resp, w1) =>
            if resp.status = 200 then resourceArticleRead remote d m w1
            else (.error (.status "update" resp.status), d, w1)
        | _ => (.panic, d, w)
      | _ => (.panic, d, w)
    | _ => (.panic, d, w)
  | _ => (.panic, d, w)

/-- Resource function `resourceArticleDelete`. -/
def resourceArticleDelete {σ : Type} (remote : Remote σ) (d : ResourceData) (m : Value)
    (w : σ) : Result × ResourceData × σ :=
  match m with
  | .str base =>
    match sendRequest remote ⟨base, some d.id⟩ "DELETE" none w with
    | none => (.panic, d, w)
    | some (.error e, w1) => (.error (.transport e), d, w1)
    | some (.ok resp, w1) =>
      if resp.status = 204 then (.ok, { d with id := "" }, w1)
      else (.error (.status "delete" resp.status), d, w1)
  | _ => (.panic, d, w)

/-- JSON text of the payload as the server decodes it: `json.Marshal` writes
all three keys, and the tags slice is never nil. -/
def encodePayload (p : Payload) : JSONArticle :=
  { id := none, heading := some p.heading, description := some p.description,
    tags := some p.tags }

/-- The value an id of the server becomes when the response is decoded into
`map[string]interface{}`: the `float64` nearest to it. From 0 up to `10^6` that
is the integer itself; for an id outside this range the value is kept as the text
`%v` prints for it, which `floatText` supplies. -/
def decodeId (floatText : Int → String) : Int → Value
  | .ofNat k => if h : k < 1000000 then .num ⟨k, h⟩ else .other (floatText (.ofNat k))
  | .negSucc k => .other (floatText (.negSucc k))

/-- What decoding a server response body into `map[string]interface{}` gives:
an encoded `Article` is an object with the four keys (a nil `Tags` is JSON
`null`); plain text, an array and an empty body do not decode into a map. -/
def decodeBody (floatText : Int → String) : Body → Option JSONMap
  | .article a =>
    some
      { id := decodeId floatText a.ID
        heading := .str a.Heading
        description := .str a.Description
        tags :=
          match a.Tags with
          | none => .nil
          | some ts => .list (ts.map Elem.str) }
  | _ => none

/-- The article server as the provider's remote, the configured URL being the
address of the server: every request is built and reaches the dispatch closure,
and the response comes back; `n` is the value `rand.Intn(1000)` yields to a
POST. `floatText` is the text `%v` prints for the `float64` an id outside
`[0, 10^6)` decodes into; no id the generator draws is out there. -/
def articleServer (floatText : Int → String) (n : Fin 1000) : Remote Store where
  newRequest := fun _ _ => none
  roundTrip := fun url method data articles =>
    ((.ok ⟨(handler n ⟨method, url.id, data.map encodePayload⟩ articles).1.status,
        decodeBody floatText
          (handler n ⟨method, url.id, data.map encodePayload⟩ articles).1.body⟩),
      (handler n ⟨method, url.id, data.map encodePayload⟩ articles).2)

/-- A remote that answers every POST with 201 and an Article of id 7, and fails
every other request at the transport level. -/
def createdThenUnreachable : Remote Unit where
  newRequest := fun _ _ => none
  roundTrip := fun _ method _ _ =>
    if method = "POST" then (.ok ⟨201, some ⟨.num 7, .str "A", .str "B", .list []⟩⟩, ())
    else (.error "connection refused", ())

end Provider

/-! ## Reading decimal text -/

namespace ArticleServer

theorem digitVal_digitChar (k : Nat) (hk : k < 10) : digitVal (Nat.digitChar k) = some k := by
  interval_cases k <;> rfl

theorem parseDigits_append (xs ys : List Char) (acc : Nat) :
    parseDigits (xs ++ ys) acc = (parseDigits xs acc).bind (fun a => parseDigits ys a) := by
  induction xs generalizing acc with
  | nil => rfl
  | cons c cs ih =>
    simp only [List.cons_append, parseDigits]
    cases digitVal c with
    | none => rfl
    | some v => exact ih _

theorem toDigitsCore_append (fuel n : Nat) (ds : List Char) :
    Nat.toDigitsCore 10 fuel n ds = Nat.toDigitsCore 10 fuel n [] ++ ds := by
  induction fuel generalizing n ds with
  | zero => simp [Nat.toDigitsCore]
  | succ f ih =>
    simp only [Nat.toDigitsCore]
    split
    · simp
    · rw [ih (n / 10) (_ :: ds), ih (n / 10) [_]]; simp

theorem parseDigits_toDigitsCore (fuel n : Nat) (h : n < fuel) :
    parseDigits (Nat.toDigitsCore 10 fuel n []) 0 = some n := by
  induction fuel generalizing n with
  | zero => omega
  | succ f ih =>
    simp only [Nat.toDigitsCore]
    split
    · rename_i h0
      have : n < 10 := by omega
      simp [parseDigits, digitVal_digitChar n this, Nat.mod_eq_of_lt this]
    · rename_i h0
      rw [toDigitsCore_append, parseDigits_append, ih (n / 10) (by omega)]
      simp [parseDigits, digitVal_digitChar (n % 10) (Nat.mod_lt _ (by decide))]
      omega

theorem toDigitsCore_ne_nil (fuel n : Nat) : Nat.toDigitsCore 10 (fuel + 1) n [] ≠ [] := by
  simp only [Nat.toDigitsCore]
  split
  · simp
  · rw [toDigitsCore_append]; simp

theorem Atoi_of_parseDigits (l : List Char) (v : Nat) (hne : l ≠ [])
    (hp : parseDigits l 0 = some v) (hv : v < 2 ^ 63) : Atoi ⟨l⟩ = some (v : Int) := by
  cases l with
  | nil => exact absurd rfl hne
  | cons c cs =>
    have hc : digitVal c ≠ none := by
      intro hcn; simp [parseDigits, hcn] at hp
    have h1 : c ≠ '-' := by rintro rfl; exact hc (by decide)
    have h2 : c ≠ '+' := by rintro rfl; exact hc (by decide)
    have hs : splitSign (c :: cs) = (false, c :: cs) := by
      unfold splitSign
      split
      · rename_i heq; simp at heq; exact absurd heq.1 h1
      · rename_i heq; simp at heq; exact absurd heq.1 h2
      · rfl
    have hv2 : v < 9223372036854775808 := by simpa using hv
    simp [Atoi, hs, hp, hv2]

theorem Atoi_toString (n : Nat) (h : n < 2 ^ 63) : Atoi (toString n) = some (n : Int) := by
  have : toString n = ⟨Nat.toDigits 10 n⟩ := rfl
  rw [this]
  exact Atoi_of_parseDigits _ n (toDigitsCore_ne_nil n n)
    (parseDigits_toDigitsCore (n + 1) n (Nat.lt_succ_self n)) h

end ArticleServer

/-! ## The article server -/

namespace ArticleServer

theorem lookup_insert_forall {P : Int → Article → Prop} {articles : Store} {k0 : Int}
    {a0 : Article} (h : ∀ k a, articles.lookup k = some a → P k a) (h0 : P k0 a0) :
    ∀ k a, (articles.insert k0 a0).lookup k = some a → P k a := by
  intro k a hk
  by_cases hkk : k = k0
  · subst hkk
    rw [AList.lookup_insert] at hk
    cases hk
    exact h0
  · rw [AList.lookup_insert_ne hkk] at hk
    exact h k a hk

theorem lookup_erase_forall {P : Int → Article → Prop} {articles : Store} {k0 : Int}
    (h : ∀ k a, articles.lookup k = some a → P k a) :
    ∀ k a, (articles.erase k0).lookup k = some a → P k a := by
  intro k a hk
  by_cases hkk : k = k0
  · subst hkk
    rw [AList.lookup_erase] at hk
    cases hk
  · rw [AList.lookup_erase_ne hkk] at hk
    exact h k a hk

theorem seedArticles_forall {P : Int → Article → Prop}
    (h1 : P 1 ⟨1, "Go Concurrency", "Learn about goroutines and channels in Go.",
        some ["Go", "Concurrency"]⟩)
    (h2 : P 2 ⟨2, "REST API Design", "Best practices for designing RESTful APIs.",
        some ["API", "REST"]⟩)
    (h3 : P 3 ⟨3, "Microservices Architecture", "An introduction to microservices.",
        some ["Microservices", "Architecture"]⟩) :
    ∀ k a, seedArticles.lookup k = some a → P k a := by
  unfold seedArticles
  refine lookup_insert_forall (lookup_insert_forall (lookup_insert_forall ?_ h1) h2) h3
  intro k a hk
  simp at hk

/-- Serving one request keeps a property of the stored entries, provided the
entries written by POST and PUT have it. -/
theorem handler_forall {P : Int → Article → Prop} (n : Fin 1000) (r : Request)
    (articles : Store) (h : ∀ k a, articles.lookup k = some a → P k a)
    (hpost : r.method = "POST" → ∀ b, r.body = some b →
      P (n.val : Int) { decodeArticle b with ID := (n.val : Int) })
    (hput : r.method = "PUT" → ∀ b i, r.body = some b → P i { decodeArticle b with ID := i }) :
    ∀ k a, (handler n r articles).2.lookup k = some a → P k a := by
  unfold handler
  split
  · rename_i hm
    unfold createArticle
    cases hb : r.body with
    | none => exact h
    | some b => exact lookup_insert_forall h (hpost hm b hb)
  · split
    · split
      · unfold getArticle
        split
        · exact h
        · split <;> exact h
      · exact h
    · split
      · rename_i hm
        unfold updateArticle
        split
        · exact h
        · cases hb : r.body with
          | none => exact h
          | some b =>
            dsimp only
            split
            · exact h
            · exact lookup_insert_forall h (hput hm b _ hb)
      · split
        · unfold deleteArticle
          split
          · exact h
          · split
            · exact h
            · exact lookup_erase_forall h
        · exact h

theorem reachable_id_eq_key (articles : Store) (h : Reachable articles) :
    ∀ k a, articles.lookup k = some a → a.ID = k := by
  induction h with
  | seed => exact seedArticles_forall rfl rfl rfl
  | step n r s _ ih =>
    exact handler_forall n r s ih (fun _ _ _ => rfl) (fun _ _ _ _ => rfl)

theorem ids_eq_keys (articles : Store) (h : ∀ k a, articles.lookup k = some a → a.ID = k) :
    (articles.entries.map (fun e => e.2)).map Article.ID = articles.keys := by
  rw [List.map_map]
  show _ = articles.entries.map Sigma.fst
  apply List.map_congr_left
  intro e he
  exact h e.1 e.2 (AList.mem_lookup_iff.mpr he)

theorem getArticle_status_200_iff (articles : Store) (g : Request) (i : Int)
    (hg : Atoi (queryId g) = some i) :
    (getArticle g articles).1.status = 200 ↔ i ∈ articles := by
  cases hl : articles.lookup i with
  | none =>
    have hni : i ∉ articles := AList.lookup_eq_none.mp hl
    simp [getArticle, hg, hl, hni]
  | some a =>
    have hmem : i ∈ articles := by
      rw [← AList.lookup_isSome, hl]; rfl
    simp [getArticle, hg, hl, hmem]


/-- C1. Create then Get round trip: for every store, every POST whose body
decodes (whatever id it carries) and every drawn value `n`, `createArticle`
answers 201 with the body's heading, description and tags under id `n`, and a
GET whose `id` parameter reads as `n` (the decimal text of `n` does) answers 200
with that same Article. -/
theorem create_then_get_roundtrip (articles : Store) (r g : Request) (b : JSONArticle)
    (n : Fin 1000) (hb : r.body = some b) (hg : Atoi (queryId g) = some (n.val : Int)) :
    (createArticle n r articles).1
        = ⟨201, .article ⟨(n.val : Int), (decodeArticle b).Heading,
            (decodeArticle b).Description, (decodeArticle b).Tags⟩⟩ ∧
      (getArticle g (createArticle n r articles).2).1
        = ⟨200, .article ⟨(n.val : Int), (decodeArticle b).Heading,
            (decodeArticle b).Description, (decodeArticle b).Tags⟩⟩ ∧
      Atoi (toString n.val) = some (n.val : Int) := by
  refine ⟨?_, ?_, Atoi_toString n.val (lt_trans n.isLt (by norm_num))⟩
  · simp [createArticle, hb]
  · simp [createArticle, hb, getArticle, hg, AList.lookup_insert]

theorem create_then_get_roundtrip_witness :
    (createArticle 7 ⟨"POST", none, some { id := some 99, heading := some "A", tags := some ["x"] }⟩
        seedArticles).1 = ⟨201, .article ⟨7, "A", "", some ["x"]⟩⟩ ∧
      (getArticle ⟨"GET", some "7", none⟩
        (createArticle 7 ⟨"POST", none, some { id := some 99, heading := some "A", tags := some ["x"] }⟩
          seedArticles).2).1 = ⟨200, .article ⟨7, "A", "", some ["x"]⟩⟩ ∧
      Atoi (toString (7 : Fin 1000).val) = some (((7 : Fin 1000).val : Nat) : Int) :=
  create_then_get_roundtrip seedArticles _ ⟨"GET", some "7", none⟩
    { id := some 99, heading := some "A", tags := some ["x"] } 7 rfl (by decide)

/-- C2. Update frame: for every store, every integer `i` and every PUT whose
`id` parameter reads as `i` and whose body decodes, `updateArticle` leaves the
entries at the other keys and the set of keys as they were; when `i` is present
the answer is 200 and the entry at `i` is the body with its id forced to `i`;
when `i` is absent the answer is 404 and the store is unchanged. -/
theorem update_frame (articles : Store) (r : Request) (b : JSONArticle) (i : Int)
    (hi : Atoi (queryId r) = some i) (hb : r.body = some b) :
    (∀ j, j ≠ i → (updateArticle r articles).2.lookup j = articles.lookup j) ∧
      (∀ j, j ∈ (updateArticle r articles).2 ↔ j ∈ articles) ∧
      (i ∈ articles →
        (updateArticle r articles).1 = ⟨200, .article { decodeArticle b with ID := i }⟩ ∧
        (updateArticle r articles).2.lookup i = some { decodeArticle b with ID := i }) ∧
      (i ∉ articles →
        (updateArticle r articles).1.status = 404 ∧ (updateArticle r articles).2 = articles) := by
  cases hl : articles.lookup i with
  | none =>
    have hni : i ∉ articles := AList.lookup_eq_none.mp hl
    simp [updateArticle, hi, hb, hl, hni]
  | some a =>
    have hmem : i ∈ articles := by
      rw [← AList.lookup_isSome, hl]; rfl
    refine ⟨?_, ?_, ?_, fun h => absurd hmem h⟩
    · intro j hj
      simp [updateArticle, hi, hb, hl, AList.lookup_insert_ne hj]
    · intro j
      simp only [updateArticle, hi, hb, hl, AList.mem_insert]
      constructor
      · rintro (rfl | h)
        · exact hmem
        · exact h
      · exact Or.inr
    · intro _
      simp [updateArticle, hi, hb, hl, AList.lookup_insert]

/-- C3. Delete: when `i` is present, DELETE `?id=i` answers 204 and removes the
entry at `i` and no other, after which GET `?id=i` answers 404 and a second
DELETE `?id=i` answers 404 and changes nothing; when `i` is absent, DELETE
answers 404 and the store is unchanged. -/
theorem delete_then_not_found (articles : Store) (r g : Request) (i : Int)
    (hi : Atoi (queryId r) = some i) (hg : Atoi (queryId g) = some i) :
    (i ∈ articles →
        (deleteArticle r articles).1 = ⟨204, .empty⟩ ∧
        (deleteArticle r articles).2.lookup i = none ∧
        (∀ j, j ≠ i → (deleteArticle r articles).2.lookup j = articles.lookup j) ∧
        (getArticle g (deleteArticle r articles).2).1.status = 404 ∧
        (deleteArticle r (deleteArticle r articles).2).1.status = 404 ∧
        (deleteArticle r (deleteArticle r articles).2).2 = (deleteArticle r articles).2) ∧
      (i ∉ articles →
        (deleteArticle r articles).1.status = 404 ∧ (deleteArticle r articles).2 = articles) := by
  cases hl : articles.lookup i with
  | none =>
    have hni : i ∉ articles := AList.lookup_eq_none.mp hl
    simp [deleteArticle, hi, hl, hni]
  | some a =>
    have hmem : i ∈ articles := by
      rw [← AList.lookup_isSome, hl]; rfl
    refine ⟨fun _ => ?_, fun h => absurd hmem h⟩
    have hd : deleteArticle r articles = (⟨204, .empty⟩, articles.erase i) := by
      simp [deleteArticle, hi, hl]
    rw [hd]
    refine ⟨rfl, AList.lookup_erase i articles, ?_, ?_, ?_, ?_⟩
    · intro j hj
      exact AList.lookup_erase_ne hj
    · simp [getArticle, hg, AList.lookup_erase]
    · simp [deleteArticle, hi, AList.lookup_erase]
    · simp [deleteArticle, hi, AList.lookup_erase]


theorem update_frame_witness :
    Atoi (queryId ⟨"PUT", some "2", some { id := some 9, heading := some "H" }⟩) = some 2 ∧
      (2 : Int) ∈ seedArticles ∧
      (updateArticle ⟨"PUT", some "2", some { id := some 9, heading := some "H" }⟩
        seedArticles).2.lookup 2 = some ⟨2, "H", "", none⟩ :=
  ⟨by decide, by decide,
    ((update_frame seedArticles ⟨"PUT", some "2", some { id := some 9, heading := some "H" }⟩
      { id := some 9, heading := some "H" } 2 (by decide) rfl).2.2.1 (by decide)).2⟩

theorem delete_then_not_found_witness :
    Atoi (queryId ⟨"DELETE", some "3", none⟩) = some 3 ∧
      (3 : Int) ∈ seedArticles ∧
      (deleteArticle ⟨"DELETE", some "3", none⟩ seedArticles).1 = ⟨204, .empty⟩ ∧
      (getArticle ⟨"GET", some "3", none⟩
        (deleteArticle ⟨"DELETE", some "3", none⟩ seedArticles).2).1.status = 404 :=
  have h := (delete_then_not_found seedArticles ⟨"DELETE", some "3", none⟩
    ⟨"GET", some "3", none⟩ 3 (by decide) (by decide)).1 (by decide)
  ⟨by decide, by decide, h.1, h.2.2.2.1⟩

/-- C4. On the seeded store, a POST for which the generator draws 1 is answered
201 and replaces the live Article 1: the id assigned is the id of an Article
already stored, that Article is gone, and the store holds as many Articles as
before, not one more. -/
theorem create_overwrites_live_article :
    seedArticles.lookup 1 = some ⟨1, "Go Concurrency",
        "Learn about goroutines and channels in Go.", some ["Go", "Concurrency"]⟩ ∧
      (createArticle 1 ⟨"POST", none, some { heading := some "X", tags := some [] }⟩
        seedArticles).1 = ⟨201, .article ⟨1, "X", "", some []⟩⟩ ∧
      (createArticle 1 ⟨"POST", none, some { heading := some "X", tags := some [] }⟩
        seedArticles).2.lookup 1 = some ⟨1, "X", "", some []⟩ ∧
      (createArticle 1 ⟨"POST", none, some { heading := some "X", tags := some [] }⟩
        seedArticles).2.entries.length = seedArticles.entries.length := by
  decide

/-- C5. GetAll agrees with Get: in every store state reachable from the seeded
store, each stored Article carries the key it is stored under as its id, so the
ids of the list `getAllArticles` returns are pairwise distinct and are exactly
the integers `i` for which GET `?id=i` answers 200. -/
theorem getAll_agrees_with_get (articles : Store) (h : Reachable articles) (r : Request) :
    (∀ k a, articles.lookup k = some a → a.ID = k) ∧
      ∃ all : List Article,
        (getAllArticles r articles).1 = ⟨200, .articles all⟩ ∧
        (all.map Article.ID).Nodup ∧
        ∀ (g : Request) (i : Int), Atoi (queryId g) = some i →
          (i ∈ all.map Article.ID ↔ (getArticle g articles).1.status = 200) := by
  have hinv := reachable_id_eq_key articles h
  refine ⟨hinv, articles.entries.map (fun e : Sigma (fun _ : Int => Article) => e.2), rfl, ?_, ?_⟩
  · rw [ids_eq_keys articles hinv]
    exact articles.keys_nodup
  · intro g i hg
    rw [ids_eq_keys articles hinv, getArticle_status_200_iff articles g i hg]
    exact AList.mem_keys.symm


theorem getAll_agrees_with_get_witness :
    Reachable (handler 7 ⟨"POST", none, some { heading := some "A" }⟩ seedArticles).2 ∧
      ∃ all : List Article,
        (getAllArticles ⟨"GET", none, none⟩
          (handler 7 ⟨"POST", none, some { heading := some "A" }⟩ seedArticles).2).1
            = ⟨200, .articles all⟩ ∧
        (all.map Article.ID).Nodup ∧
        ∀ (g : Request) (i : Int), Atoi (queryId g) = some i →
          (i ∈ all.map Article.ID ↔
            (getArticle g
              (handler 7 ⟨"POST", none, some { heading := some "A" }⟩ seedArticles).2).1.status
              = 200) :=
  ⟨Reachable.step 7 _ _ Reachable.seed,
    (getAll_agrees_with_get _ (Reachable.step 7 _ _ Reachable.seed) ⟨"GET", none, none⟩).2⟩

/-- C6, as stated, fails: after a POST whose body omits `tags`, served on the
seeded store, the Article stored under the drawn id has nil tags. -/
theorem stored_tags_null_after_post_without_tags :
    Reachable (handler 5 ⟨"POST", none, some { heading := some "A" }⟩ seedArticles).2 ∧
      (handler 5 ⟨"POST", none, some { heading := some "A" }⟩ seedArticles).2.lookup 5
        = some ⟨5, "A", "", none⟩ :=
  ⟨Reachable.step 5 _ _ Reachable.seed, by decide⟩

/-- C6, amended. In every store state reached from the seeded store by requests
whose bodies, when they decode, carry a `tags` array, every stored Article has
non-nil tags; a POST whose body decodes and omits `tags` (or gives it as `null`)
stores an Article with nil tags. -/
theorem tags_non_null_when_bodies_carry_tags (articles : Store)
    (h : ReachableWithTags articles) :
    (∀ k a, articles.lookup k = some a → a.Tags ≠ none) ∧
      ∀ (n : Fin 1000) (r : Request) (b : JSONArticle), r.body = some b → b.tags = none →
        (createArticle n r articles).2.lookup (n.val : Int)
          = some ⟨(n.val : Int), (decodeArticle b).Heading, (decodeArticle b).Description, none⟩ := by
  constructor
  · induction h with
    | seed => exact seedArticles_forall (by simp) (by simp) (by simp)
    | step n r s hr _ ih =>
      have hb : (r.method = "POST" ∨ r.method = "PUT") →
          ∀ b, r.body = some b → b.tags ≠ none := by
        intro hm b hb hnone
        simp [Request.carriesTags, hm, hb, hnone] at hr
      exact handler_forall n r s ih (fun hm b h => hb (Or.inl hm) b h)
        (fun hm b _ h => hb (Or.inr hm) b h)
  · intro n r b hb ht
    simp [createArticle, hb, AList.lookup_insert, decodeArticle, ht]

theorem tags_non_null_when_bodies_carry_tags_witness :
    ReachableWithTags
        (handler 5 ⟨"POST", none, some { heading := some "A", tags := some [] }⟩ seedArticles).2 ∧
      ∀ k a,
        (handler 5 ⟨"POST", none, some { heading := some "A", tags := some [] }⟩
          seedArticles).2.lookup k = some a → a.Tags ≠ none :=
  ⟨ReachableWithTags.step 5 _ _ (by decide) ReachableWithTags.seed,
    (tags_non_null_when_bodies_carry_tags _
      (ReachableWithTags.step 5 _ _ (by decide) ReachableWithTags.seed)).1⟩

end ArticleServer

/-! ## The provider -/

namespace Provider

open ArticleServer

theorem toStringTags_map_str (ts : List String) : toStringTags (ts.map Elem.str) = .ok ts := by
  induction ts with
  | nil => rfl
  | cons t ts ih => simp [toStringTags, ih]

theorem resourceArticleRead_id {σ : Type} (remote : Remote σ) (d : ResourceData) (m : Value)
    (w : σ) : (resourceArticleRead remote d m w).2.1.id = d.id := by
  unfold resourceArticleRead
  split
  · split
    · rfl
    · rfl
    · split
      · split <;> rfl
      · rfl
  · rfl

theorem decodeId_natCast (floatText : Int → String) (k : Nat) (h : k < 1000000) :
    decodeId floatText (k : Int) = .num ⟨k, h⟩ := by
  show (if h : k < 1000000 then Value.num ⟨k, h⟩ else _) = _
  rw [dif_pos h]

theorem articleServer_post (floatText : Int → String) (n : Fin 1000) (base : String)
    (p : Payload) (articles : Store) :
    sendRequest (articleServer floatText n) ⟨base, none⟩ "POST" (some p) articles
      = some (.ok ⟨201, some ⟨.num ⟨n.val, lt_trans n.isLt (by norm_num)⟩, .str p.heading,
            .str p.description, .list (p.tags.map Elem.str)⟩⟩,
          articles.insert (n.val : Int) ⟨(n.val : Int), p.heading, p.description, some p.tags⟩) := by
  simp [sendRequest, articleServer, handler, createArticle, encodePayload, decodeArticle,
    decodeBody, decodeId_natCast floatText n.val (lt_trans n.isLt (by norm_num))]

theorem articleServer_get (floatText : Int → String) (n : Fin 1000) (base : String) (i : Nat)
    (hi : i < 2 ^ 63) (a : Article) (articles : Store)
    (ha : articles.lookup (i : Int) = some a) :
    sendRequest (articleServer floatText n) ⟨base, some (toString i)⟩ "GET" none articles
      = some (.ok ⟨200, decodeBody floatText (.article a)⟩, articles) := by
  have hq : Atoi (toString i) = some (i : Int) := Atoi_toString i hi
  simp [sendRequest, articleServer, handler, getArticle, queryId, hq, ha]

/-- C7. Reconciler round trip: for every state of the article server, every
drawn id `n` and every desired heading, description and list of string tags
(and whatever `%v` prints for ids outside the range the generator draws from),
`resourceArticleCreate` returns no error, records the decimal text of `n` as
identifier and leaves the Article stored under `n`; `resourceArticleRead` with
that identifier returns no error and leaves heading, description and tags (in
the same order) equal to the desired ones. -/
theorem create_then_read_roundtrip (floatText : Int → String) (articles : Store)
    (n : Fin 1000) (heading description : String) (tags : List String) (base id0 : String) :
    (resourceArticleCreate (articleServer floatText n)
        ⟨id0, .str heading, .str description, .list (tags.map Elem.str)⟩ (.str base) articles)
      = (.ok, ⟨toString n.val, .str heading, .str description, .list (tags.map Elem.str)⟩,
          articles.insert (n.val : Int) ⟨(n.val : Int), heading, description, some tags⟩) ∧
    (resourceArticleRead (articleServer floatText n)
        ⟨toString n.val, .str heading, .str description, .list (tags.map Elem.str)⟩ (.str base)
        (articles.insert (n.val : Int) ⟨(n.val : Int), heading, description, some tags⟩))
      = (.ok, ⟨toString n.val, .str heading, .str description, .list (tags.map Elem.str)⟩,
          articles.insert (n.val : Int) ⟨(n.val : Int), heading, description, some tags⟩) := by
  have hn : n.val < 2 ^ 63 := lt_trans n.isLt (by norm_num)
  have hread :
      (resourceArticleRead (articleServer floatText n)
        ⟨toString n.val, .str heading, .str description, .list (tags.map Elem.str)⟩ (.str base)
        (articles.insert (n.val : Int) ⟨(n.val : Int), heading, description, some tags⟩))
      = (.ok, ⟨toString n.val, .str heading, .str description, .list (tags.map Elem.str)⟩,
          articles.insert (n.val : Int) ⟨(n.val : Int), heading, description, some tags⟩) := by
    unfold resourceArticleRead
    simp only [articleServer_get floatText n base n.val hn _ _ (AList.lookup_insert _)]
    simp [decodeBody, setString, setTags, toStringTags_map_str]
  refine ⟨?_, hread⟩
  unfold resourceArticleCreate
  simp only [toStringTags_map_str, articleServer_post]
  simp only [if_true, Value.sprint]
  exact hread

/-- C8, as stated, fails: when the POST is answered 201 and the read-back GET
fails at the transport level, `resourceArticleCreate` returns that error with
the identifier already set to "7". -/
theorem create_error_with_identifier_set :
    resourceArticleCreate createdThenUnreachable ⟨"", .str "A", .str "B", .list []⟩
        (.str "http://localhost:9999") ()
      = (.error (.transport "connection refused"), ⟨"7", .str "A", .str "B", .list []⟩, ()) := by
  decide

/-- C8, amended. For every record, `meta`, remote and state of the remote.
(1) Whenever the tags check passes, `meta`, heading and description are strings
and the POST is answered 201 with a decodable body, `resourceArticleCreate` sets
the identifier to the text of the returned id and returns what the read-back
returns on that record: the identifier has that value whatever the read-back
yields, an error included. (2) In every other case (failed tags check, `meta`
not a string, a request that cannot be built, a transport error on the POST, a
status other than 201, a body that does not decode) it does not return success
and leaves the whole record, identifier included, as it was. -/
theorem create_sets_id_exactly_after_post {σ : Type} (remote : Remote σ) (d : ResourceData)
    (m : Value) (w : σ) :
    (∀ (base : String) (tagsList : List Elem) (p : Payload) (resp : HTTPResponse)
        (created : JSONMap) (w1 : σ),
        d.tags = .list tagsList → toStringTags tagsList = .ok p.tags →
        m = .str base → d.heading = .str p.heading → d.description = .str p.description →
        sendRequest remote ⟨base, none⟩ "POST" (some p) w = some (.ok resp, w1) →
        resp.status = 201 → resp.body = some created →
        resourceArticleCreate remote d m w
            = resourceArticleRead remote { d with id := created.id.sprint } m w1 ∧
          (resourceArticleCreate remote d m w).2.1.id = created.id.sprint) ∧
      ((¬ ∃ (base : String) (tagsList : List Elem) (p : Payload) (resp : HTTPResponse)
          (created : JSONMap) (w1 : σ),
          d.tags = .list tagsList ∧ toStringTags tagsList = .ok p.tags ∧
          m = .str base ∧ d.heading = .str p.heading ∧ d.description = .str p.description ∧
          sendRequest remote ⟨base, none⟩ "POST" (some p) w = some (.ok resp, w1) ∧
          resp.status = 201 ∧ resp.body = some created) →
        (resourceArticleCreate remote d m w).1 ≠ .ok ∧
          (resourceArticleCreate remote d m w).2.1 = d) := by
  constructor
  · intro base tagsList p resp created w1 ht hts hm hh hd hsend hst hbody
    obtain ⟨ph, pd, pt⟩ := p
    simp only at hts hh hd hsend
    have hc : resourceArticleCreate remote d m w
        = resourceArticleRead remote { d with id := created.id.sprint } m w1 := by
      unfold resourceArticleCreate
      simp only [ht, hts, hm, hh, hd, hsend, hst, hbody, if_true]
    exact ⟨hc, by rw [hc]; exact resourceArticleRead_id _ _ _ _⟩
  · intro hno
    unfold resourceArticleCreate
    split
    · exact ⟨by simp, rfl⟩
    · rename_i tagsList ht
      split
      · exact ⟨by simp, rfl⟩
      · rename_i stringTags hts
        split
        · rename_i base
          split
          · rename_i heading hh
            split
            · rename_i description hd
              split
              · exact ⟨by simp, rfl⟩
              · exact ⟨by simp, rfl⟩
              · rename_i resp w1 hsend
                split
                · rename_i hst
                  split
                  · exact ⟨by simp, rfl⟩
                  · rename_i created hbody
                    exact absurd ⟨base, tagsList, ⟨heading, description, stringTags⟩, resp,
                      created, w1, ht, hts, rfl, hh, hd, hsend, hst, hbody⟩ hno
                · exact ⟨by simp, rfl⟩
            · exact ⟨by simp, rfl⟩
          · exact ⟨by simp, rfl⟩
        · exact ⟨by simp, rfl⟩
    · exact ⟨by simp, rfl⟩

/-- An instance of C8, amended: the POST is answered 201 with id 7 and the
read-back fails at the transport level; the identifier is "7" and the error is
the one of the read-back. In the other direction, with `meta` not a string
nothing is sent and the record is as it was. -/
theorem create_sets_id_exactly_after_post_witness :
    (resourceArticleCreate createdThenUnreachable ⟨"", .str "A", .str "B", .list []⟩
        (.str "http://localhost:9999") ()
        = resourceArticleRead createdThenUnreachable ⟨"7", .str "A", .str "B", .list []⟩
            (.str "http://localhost:9999") () ∧
      (resourceArticleCreate createdThenUnreachable ⟨"", .str "A", .str "B", .list []⟩
        (.str "http://localhost:9999") ()).2.1.id = "7") ∧
    ((resourceArticleCreate createdThenUnreachable ⟨"", .str "A", .str "B", .list []⟩
        .nil ()).1 ≠ .ok ∧
      (resourceArticleCreate createdThenUnreachable ⟨"", .str "A", .str "B", .list []⟩
        .nil ()).2.1 = ⟨"", .str "A", .str "B", .list []⟩) :=
  ⟨(create_sets_id_exactly_after_post createdThenUnreachable ⟨"", .str "A", .str "B", .list []⟩
      (.str "http://localhost:9999") ()).1 "http://localhost:9999" [] ⟨"A", "B", []⟩
      ⟨201, some ⟨.num 7, .str "A", .str "B", .list []⟩⟩ ⟨.num 7, .str "A", .str "B", .list []⟩ ()
      rfl rfl rfl rfl rfl rfl rfl rfl,
    (create_sets_id_exactly_after_post createdThenUnreachable ⟨"", .str "A", .str "B", .list []⟩
      .nil ()).2 (by
        rintro ⟨base, tagsList, p, resp, created, w1, _, _, hm, _⟩
        cases hm)⟩

/-- C9. Delete clears the identifier exactly on success: for every record and
every outcome of the DELETE request, `resourceArticleDelete` returns no error
with the identifier empty if and only if the request got a response of status
204, and then only the identifier has changed; on a transport error or any
other status it returns an error and leaves the record unchanged. -/
theorem delete_clears_id_iff_204 {σ : Type} (remote : Remote σ) (d : ResourceData)
    (base : String) (w : σ) :
    (((resourceArticleDelete remote d (.str base) w).1 = .ok ∧
          (resourceArticleDelete remote d (.str base) w).2.1.id = "") ↔
        ∃ resp w1, sendRequest remote ⟨base, some d.id⟩ "DELETE" none w = some (.ok resp, w1) ∧
          resp.status = 204) ∧
      ((∃ resp w1, sendRequest remote ⟨base, some d.id⟩ "DELETE" none w = some (.ok resp, w1) ∧
          resp.status = 204) →
        (resourceArticleDelete remote d (.str base) w).2.1 = { d with id := "" }) ∧
      ((¬ ∃ resp w1, sendRequest remote ⟨base, some d.id⟩ "DELETE" none w
            = some (.ok resp, w1) ∧ resp.status = 204) →
        (∃ e, (resourceArticleDelete remote d (.str base) w).1 = .error e) ∧
        (resourceArticleDelete remote d (.str base) w).2.1 = d) := by
  have hsome : ∃ out w1, sendRequest remote ⟨base, some d.id⟩ "DELETE" none w
      = some (out, w1) := by
    unfold sendRequest
    simp only
    split <;> exact ⟨_, _, rfl⟩
  obtain ⟨out, w1, hs⟩ := hsome
  unfold resourceArticleDelete
  simp only [hs]
  cases out with
  | error e => simp
  | ok resp =>
    by_cases hst : resp.status = 204
    · simp [hst]
    · simp [hst]

/-- A tags value held as `[]interface{}` makes Update panic, whatever else it
is given; a tags value held as `[]string` makes Create return its "not a list"
error before any request is sent. -/
theorem update_panics_on_list {σ : Type} (remote : Remote σ) (d : ResourceData)
    (m : Value) (w : σ) :
    (∀ xs, d.tags = .list xs → resourceArticleUpdate remote d m w = (.panic, d, w)) ∧
      (∀ ss, d.tags = .strings ss →
        resourceArticleCreate remote d m w = (.error (.tagsNotList (.strings ss)), d, w)) := by
  constructor
  · intro xs hx
    unfold resourceArticleUpdate
    split
    · split
      · split
        · simp [hx]
        · rfl
      · rfl
    · rfl
  · intro ss hs
    unfold resourceArticleCreate
    simp [hs]

/-- C10. Against the article server on its seeded store, with draw 7 (and
whatever `%v` prints for ids outside the generator's range): at the tags value `[]interface{}{"x"}`, which Create accepts (it sends
its POST and returns no error), Update does not return an error: its unchecked
assertion `.([]string)` panics before any request is sent. At `[]string{"x"}`,
the only representation Update's assertion lets through, Create returns its
"tags should be a list of strings" error. -/
theorem update_panics_on_tags_create_accepts (floatText : Int → String) :
    (resourceArticleCreate (articleServer floatText 7) ⟨"", .str "A", .str "B", .list [.str "x"]⟩
        (.str "http://localhost:9999") seedArticles).1 = .ok ∧
      (resourceArticleCreate (articleServer floatText 7) ⟨"", .str "A", .str "B", .list [.str "x"]⟩
        (.str "http://localhost:9999") seedArticles).2.1
        = ⟨"7", .str "A", .str "B", .list [.str "x"]⟩ ∧
      resourceArticleUpdate (articleServer floatText 7) ⟨"7", .str "A2", .str "B", .list [.str "x"]⟩
        (.str "http://localhost:9999")
        (resourceArticleCreate (articleServer floatText 7) ⟨"", .str "A", .str "B", .list [.str "x"]⟩
          (.str "http://localhost:9999") seedArticles).2.2
        = (.panic, ⟨"7", .str "A2", .str "B", .list [.str "x"]⟩,
            (resourceArticleCreate (articleServer floatText 7) ⟨"", .str "A", .str "B", .list [.str "x"]⟩
              (.str "http://localhost:9999") seedArticles).2.2) ∧
      (resourceArticleCreate (articleServer floatText 7) ⟨"", .str "A", .str "B", .strings ["x"]⟩
        (.str "http://localhost:9999") seedArticles).1
        = .error (.tagsNotList (.strings ["x"])) := by
  refine ⟨rfl, rfl, rfl, rfl⟩

end Provider
